import Mathlib

/-!
Verification of the window_mod injection core against its specification.

The development shallowly embeds the C++ sources:
  * `src/src/injector.cpp`      — `InjectWDASetAffinity`, `UnloadInjectedDll`
    and their helpers (`CreateSharedData`, `FindRemoteDll`, `RemoteFreeLibrary`,
    `RemoteLoadLibrary`, `SpawnLauncherForPid`);
  * `src/inject_launcher/launcher_main.cpp` — the launcher's `wmain`;
  * `src/inject_dll/dllmain.cpp` — the agent's `DllMain`.

Win32 API outcomes (file existence, process opening, remote-call results,
module lists, `GetWindowDisplayAffinity`) are abstracted into an environment
record `Env`; each embedded function returns its result together with a trace
of the externally visible actions it performed, in program order, so that
ordering and resource-balance claims can be stated about the trace.
-/

set_option autoImplicit false

namespace WindowMod

/-- Thread start routines passed to `CreateRemoteThread` by this code base. -/
inductive RemoteRoutine where
  | loadLibrary
  | freeLibrary
deriving DecidableEq

/-- Externally visible actions of the injector / launcher, in program order. -/
inductive Event where
  /-- `GetFileAttributesW` existence test on `path`. -/
  | fileCheck (path : String)
  /-- `SetLastError(code)`. -/
  | setLastError (code : Nat)
  /-- `CreateFileMappingW` succeeded for the payload channel. -/
  | mapCreated
  /-- The payload record `{hwnd, affinity}` was copied into the mapped view. -/
  | payloadWrite (hwnd affinity : Nat)
  /-- `UnmapViewOfFile` on the writer's view of the payload channel. -/
  | payloadUnmap
  /-- `CloseHandle` on the payload-channel mapping handle. -/
  | closeMapHandle
  /-- `OpenProcess(pid)` was called; `ok` records whether it returned a handle. -/
  | openProcess (pid : Nat) (ok : Bool)
  /-- `CloseHandle` on the target-process handle. -/
  | closeProcessHandle (pid : Nat)
  /-- `VirtualAllocEx` succeeded inside process `pid` (path buffer). -/
  | remoteAlloc (pid : Nat)
  /-- `VirtualFreeEx` of the path buffer inside process `pid`. -/
  | remoteFree (pid : Nat)
  /-- `CreateRemoteThread` was called in process `pid` with the given routine. -/
  | createRemoteThread (pid : Nat) (routine : RemoteRoutine)
  /-- `CreateProcessW` was called to spawn the opposite-arch launcher for `pid`. -/
  | launcherSpawn (pid : Nat)
deriving DecidableEq

/-- `ERROR_FILE_NOT_FOUND` (winerror.h). -/
def ERROR_FILE_NOT_FOUND : Nat := 2

/-- `WDA_NONE` (dllmain.cpp). -/
def WDA_NONE : Nat := 0

/-- `WDA_EXCLUDEFROMCAPTURE` (dllmain.cpp). -/
def WDA_EXCLUDEFROMCAPTURE : Nat := 0x11

/-- Lower-case a character code the way `_wcsicmp` compares: ASCII letters only. -/
def lcVal (c : Char) : Nat :=
  if 65 ≤ c.toNat ∧ c.toNat ≤ 90 then c.toNat + 32 else c.toNat

/-- Case-folded character codes of a string, the comparison key used to model
the case-insensitive filename matching of `FindRemoteDll`. -/
def lcList (s : String) : List Nat := s.data.map lcVal

/-- Case-insensitive string equality (`_wcsicmp(a, b) == 0`). -/
def eqNoCase (a b : String) : Bool := lcList a == lcList b

/-- Characters after the last backslash (the filename part of a path), as in
`wcsrchr(path, L'\\')` / `modName.rfind(L'\\')` followed by taking the tail. -/
def filenameOf (s : String) : List Char :=
  s.data.foldl (fun acc c => if c == '\\' then [] else acc ++ [c]) []

/-- `dir / name` (std::filesystem::path concatenation as used here). -/
def joinPath (dir name : String) : String := dir ++ "\\" ++ name

/-- A target process's loaded-module list, shared by all modelled processes:
entries are `(pid, case-folded filename key, HMODULE)`. -/
abbrev Modules := List (Nat × List Nat × Nat)

/-- Model of `FindRemoteDll`: scan the module list of `pid` for a module whose
filename equals `name` case-insensitively and return its remote `HMODULE`. -/
def findMod (ms : Modules) (pid : Nat) (name : String) : Option Nat :=
  (ms.find? (fun e => e.1 == pid && e.2.1 == lcList name)).map (fun e => e.2.2)

/-- Effect of a successful remote `FreeLibrary` on the module list. -/
def removeMod (ms : Modules) (pid hMod : Nat) : Modules :=
  ms.filter (fun e => !(e.1 == pid && e.2.2 == hMod))

/-- Effect of a successful remote `LoadLibraryW` on the module list. -/
def addMod (ms : Modules) (pid : Nat) (key : List Nat) (hMod : Nat) : Modules :=
  ms ++ [(pid, key, hMod)]

/-- The abstract Win32 environment one call runs against.  Every field records
the outcome the corresponding API would produce during the call. -/
structure Env where
  /-- Whether the controller binary is 64-bit (`_WIN64`). -/
  is64 : Bool
  /-- Directory containing the controller executable (`ExeDir`). -/
  exeDir : String
  /-- `GetFileAttributesW`-based existence test (`FileExists`). -/
  fileExists : String → Bool
  /-- `IsWindow` for each window handle. -/
  isWindow : Nat → Bool
  /-- `GetWindowThreadProcessId` owner pid of a handle; `0` means failure. -/
  windowPid : Nat → Nat
  /-- Whether `CreateFileMappingW` on the payload channel succeeds. -/
  createFileMappingOk : Bool
  /-- Whether `MapViewOfFile` on the writer side succeeds. -/
  mapViewOk : Bool
  /-- Whether `OpenProcess(pid)` yields a handle. -/
  openProcessOk : Nat → Bool
  /-- `IsArchMismatch` for the process owning the handle of pid. -/
  archMismatch : Nat → Bool
  /-- Initial loaded-module lists of all processes. -/
  modules0 : Modules
  /-- Whether `GetModuleHandleW(L"kernel32.dll")` succeeds. -/
  kernel32 : Bool
  /-- Whether `GetProcAddress(hK32, "FreeLibrary")` resolves. -/
  freeLibResolved : Bool
  /-- Whether `VirtualAllocEx` in `pid` succeeds. -/
  virtualAllocOk : Nat → Bool
  /-- Whether `WriteProcessMemory` into `pid` succeeds. -/
  writeMemOk : Nat → Bool
  /-- Whether `CreateRemoteThread` in `pid` succeeds. -/
  createRemoteThreadOk : Nat → Bool
  /-- `GetExitCodeThread` result of the remote `LoadLibraryW` thread in `pid`
  (the remote `HMODULE`; `0` = load failed). -/
  remoteLoadExit : Nat → Nat
  /-- Whether `CreateProcessW` on the launcher command line succeeds. -/
  createProcessOk : Bool
  /-- `GetExitCodeProcess` result of the spawned launcher for `pid`. -/
  launcherExit : Nat → Nat
  /-- Whether `GetProcAddress(user32, "GetWindowDisplayAffinity")` resolves. -/
  gwdaResolved : Bool
  /-- Whether the `GetWindowDisplayAffinity(hwnd, &actual)` call succeeds. -/
  gwdaCallOk : Nat → Bool
  /-- The affinity value the query yields for `hwnd` when it succeeds. -/
  gwdaValue : Nat → Nat

/-- Same-arch agent DLL filename (`sameDllName` in `InjectWDASetAffinity`). -/
def sameDllName (env : Env) : String :=
  if env.is64 then "wda_inject_x64.dll" else "wda_inject_x86.dll"

/-- Opposite-arch agent DLL filename (`oppDllName`). -/
def oppDllName (env : Env) : String :=
  if env.is64 then "wda_inject_x86.dll" else "wda_inject_x64.dll"

/-- Legacy single-name agent DLL filename. -/
def legacyDllName : String := "wda_inject.dll"

/-- Opposite-arch launcher executable filename (`launcherName` in
`SpawnLauncherForPid`). -/
def launcherName (env : Env) : String :=
  if env.is64 then "wda_launcher_x86.exe" else "wda_launcher_x64.exe"

/-- Result of `CreateSharedData`: whether a valid mapping handle was returned,
plus the actions performed. -/
structure SharedDataOut where
  ok : Bool
  trace : List Event

/-- `CreateSharedData` (injector.cpp:51-72): create the named mapping, map a
view, write `{hwnd, affinity}`, unmap, and return the mapping handle.  On
`MapViewOfFile` failure the mapping handle is closed before returning. -/
def CreateSharedData (env : Env) (hwnd affinity : Nat) : SharedDataOut :=
  if !env.createFileMappingOk then ⟨false, []⟩
  else if !env.mapViewOk then ⟨false, [.mapCreated, .closeMapHandle]⟩
  else ⟨true, [.mapCreated, .payloadWrite hwnd affinity, .payloadUnmap]⟩

/-- Result of a helper that may mutate the module list. -/
structure FreeOut where
  ms : Modules
  trace : List Event

/-- `RemoteFreeLibrary` (injector.cpp:109-123, identical in
launcher_main.cpp:59-74): resolve `FreeLibrary` in kernel32 and run it in the
target on a remote thread; silently does nothing when resolution fails. -/
def RemoteFreeLibrary (env : Env) (ms : Modules) (pid hMod : Nat) : FreeOut :=
  if !env.kernel32 then ⟨ms, []⟩
  else if !env.freeLibResolved then ⟨ms, []⟩
  else if !env.createRemoteThreadOk pid then
    ⟨ms, [.createRemoteThread pid .freeLibrary]⟩
  else ⟨removeMod ms pid hMod, [.createRemoteThread pid .freeLibrary]⟩

/-- Result of `RemoteLoadLibrary`. -/
structure LoadOut where
  exitCode : Nat
  ms : Modules
  trace : List Event

/-- `RemoteLoadLibrary` (injector.cpp:148-194, and the inline equivalent in
launcher_main.cpp:119-154): allocate a buffer in the target, write the DLL
path, start a remote `LoadLibraryW` thread, wait, read the thread exit code,
and free the buffer on every path on which it was allocated. -/
def RemoteLoadLibrary (env : Env) (ms : Modules) (pid : Nat) (dllPath : String) :
    LoadOut :=
  if !env.virtualAllocOk pid then ⟨0, ms, []⟩
  else if !env.writeMemOk pid then ⟨0, ms, [.remoteAlloc pid, .remoteFree pid]⟩
  else if !env.kernel32 then ⟨0, ms, [.remoteAlloc pid, .remoteFree pid]⟩
  else if !env.createRemoteThreadOk pid then
    ⟨0, ms, [.remoteAlloc pid, .createRemoteThread pid .loadLibrary, .remoteFree pid]⟩
  else
    let exit := env.remoteLoadExit pid
    let ms1 := if exit == 0 then ms else addMod ms pid ((filenameOf dllPath).map lcVal) exit
    ⟨exit, ms1, [.remoteAlloc pid, .createRemoteThread pid .loadLibrary, .remoteFree pid]⟩

/-- Result of `SpawnLauncherForPid`. -/
structure SpawnOut where
  ok : Bool
  trace : List Event

/-- `SpawnLauncherForPid` (injector.cpp:200-245): check that the opposite-arch
launcher exists next to the controller, spawn it, wait, and map its exit code
to success (`0`) / failure (nonzero). -/
def SpawnLauncherForPid (env : Env) (pid : Nat) (_dllPath : String) : SpawnOut :=
  let lp := joinPath env.exeDir (launcherName env)
  if !env.fileExists lp then
    ⟨false, [.fileCheck lp, .setLastError ERROR_FILE_NOT_FOUND]⟩
  else if !env.createProcessOk then ⟨false, [.fileCheck lp, .launcherSpawn pid]⟩
  else ⟨env.launcherExit pid == 0, [.fileCheck lp, .launcherSpawn pid]⟩

/-- Result of the module-eviction loops. -/
structure LoopOut where
  ms : Modules
  trace : List Event
  found : Bool

/-- The module-scan-and-unload loop shared by the stale-copy eviction of
`InjectWDASetAffinity` (names `{sameDllName, legacy}`) and by
`UnloadInjectedDll` (all three known names): for each name in order, look the
module up and force-unload it when present. -/
def unloadLoop (env : Env) (ms : Modules) (pid : Nat) : List String → LoopOut
  | [] => ⟨ms, [], false⟩
  | n :: rest =>
    match findMod ms pid n with
    | none => unloadLoop env ms pid rest
    | some hm =>
      let f := RemoteFreeLibrary env ms pid hm
      let r := unloadLoop env f.ms pid rest
      ⟨r.ms, f.trace ++ r.trace, true⟩

/-- The post-injection verification of `InjectWDASetAffinity` (lines 399-424,
and the best-effort cross-arch variant at lines 355-371): when
`GetWindowDisplayAffinity` resolves and the query call succeeds, success is
`actual == affinity`; when the query call fails or the primitive does not
resolve, success is assumed. -/
def verifyAffinity (env : Env) (hwnd affinity : Nat) : Bool :=
  if env.gwdaResolved then
    if env.gwdaCallOk hwnd then env.gwdaValue hwnd == affinity else true
  else true

/-- Result of the inner body of `InjectWDASetAffinity` (state after the
target process has been opened). -/
structure InnerOut where
  success : Bool
  trace : List Event
  ms : Modules

/-- Body of `InjectWDASetAffinity` after `OpenProcess` succeeded
(injector.cpp:322-436): cross-arch delegation or same-arch
evict / load / verify / auto-unload. -/
def applyInner (env : Env) (hwnd affinity : Nat) (autoUnload : Bool)
    (pid : Nat) (sName samePath oppPath : String) : InnerOut :=
  if env.archMismatch pid then
    if !env.fileExists oppPath then
      ⟨false, [.fileCheck oppPath, .setLastError ERROR_FILE_NOT_FOUND], env.modules0⟩
    else
      let sp := SpawnLauncherForPid env pid oppPath
      if !sp.ok then ⟨false, .fileCheck oppPath :: sp.trace, env.modules0⟩
      else ⟨verifyAffinity env hwnd affinity, .fileCheck oppPath :: sp.trace, env.modules0⟩
  else
    let ev := unloadLoop env env.modules0 pid [sName, legacyDllName]
    let ld := RemoteLoadLibrary env ev.ms pid samePath
    if ld.exitCode == 0 then ⟨false, ev.trace ++ ld.trace, ld.ms⟩
    else
      let success := verifyAffinity env hwnd affinity
      if autoUnload then
        let hRemote :=
          match findMod ld.ms pid sName with
          | some hm => some hm
          | none => findMod ld.ms pid legacyDllName
        match hRemote with
        | some hm =>
          let f := RemoteFreeLibrary env ld.ms pid hm
          ⟨success, ev.trace ++ ld.trace ++ f.trace, f.ms⟩
        | none => ⟨success, ev.trace ++ ld.trace, ld.ms⟩
      else ⟨success, ev.trace ++ ld.trace, ld.ms⟩

/-- Body of `InjectWDASetAffinity` after the shared payload has been written
(injector.cpp:296-439): pid resolution, `OpenProcess`, the inner body, and
the unconditional `CloseHandle(hProcess)` once the process was opened. -/
def applyAfterMap (env : Env) (hwnd affinity : Nat) (autoUnload : Bool)
    (sName samePath oppPath : String) : InnerOut :=
  let pid := env.windowPid hwnd
  if pid == 0 then ⟨false, [], env.modules0⟩
  else if !env.openProcessOk pid then ⟨false, [.openProcess pid false], env.modules0⟩
  else
    let inner := applyInner env hwnd affinity autoUnload pid sName samePath oppPath
    ⟨inner.success, .openProcess pid true :: (inner.trace ++ [.closeProcessHandle pid]),
      inner.ms⟩

/-- Result of a top-level injector call. -/
structure ApplyOut where
  result : Bool
  trace : List Event
  modules : Modules

/-- `InjectWDASetAffinity` (injector.cpp:248-451) — the `apply` operation of
the spec: validate the handle, resolve the agent DLL paths (arch-named with
legacy fallback), fail fast with `ERROR_FILE_NOT_FOUND` when the same-arch
DLL is missing, write the shared payload, run the body, and always close the
mapping handle once it was created. -/
def InjectWDASetAffinity (env : Env) (hwnd affinity : Nat) (autoUnload : Bool) :
    ApplyOut :=
  if hwnd == 0 || !env.isWindow hwnd then ⟨false, [], env.modules0⟩
  else
    let sName := sameDllName env
    let p0 := joinPath env.exeDir sName
    let samePath := if env.fileExists p0 then p0 else joinPath env.exeDir legacyDllName
    let oppPath := joinPath env.exeDir (oppDllName env)
    let t1 : List Event := [.fileCheck p0, .fileCheck samePath]
    if !env.fileExists samePath then
      ⟨false, t1 ++ [.setLastError ERROR_FILE_NOT_FOUND], env.modules0⟩
    else
      let sd := CreateSharedData env hwnd affinity
      if !sd.ok then ⟨false, t1 ++ sd.trace, env.modules0⟩
      else
        let body := applyAfterMap env hwnd affinity autoUnload sName samePath oppPath
        ⟨body.success, t1 ++ sd.trace ++ body.trace ++ [.closeMapHandle], body.ms⟩

/-- The three module names `UnloadInjectedDll` scans for. -/
def unloadNames : List String :=
  ["wda_inject_x64.dll", "wda_inject_x86.dll", "wda_inject.dll"]

/-- `UnloadInjectedDll` (injector.cpp:454-507) — the `removeAgent` operation
of the spec: validate the handle, resolve the owning pid, open the target,
force-unload every known agent DLL name found, close the process handle, and
report success even when nothing was found. -/
def UnloadInjectedDll (env : Env) (hwnd : Nat) : ApplyOut :=
  if hwnd == 0 || !env.isWindow hwnd then ⟨false, [], env.modules0⟩
  else
    let pid := env.windowPid hwnd
    if pid == 0 then ⟨false, [], env.modules0⟩
    else if !env.openProcessOk pid then ⟨false, [.openProcess pid false], env.modules0⟩
    else
      let lp := unloadLoop env env.modules0 pid unloadNames
      ⟨true, .openProcess pid true :: (lp.trace ++ [.closeProcessHandle pid]), lp.ms⟩

/-! ### The launcher (`launcher_main.cpp`) -/

/-- A digit-accumulating scan; stops at the first non-digit (`_wtol` body). -/
def digitsVal : List Char → Nat → Nat
  | [], acc => acc
  | c :: rest, acc =>
    if 48 ≤ c.toNat ∧ c.toNat ≤ 57 then digitsVal rest (acc * 10 + (c.toNat - 48))
    else acc

/-- `_wtol`: optional leading whitespace, optional sign, decimal digits. -/
def wtol (s : String) : Int :=
  let cs := s.data.dropWhile (fun c => c == ' ' || c == '\t' || c == '\n' || c == '\r')
  match cs with
  | '-' :: rest => -(Int.ofNat (digitsVal rest 0))
  | '+' :: rest => Int.ofNat (digitsVal rest 0)
  | _ => Int.ofNat (digitsVal cs 0)

/-- `static_cast<DWORD>(_wtol(s))`: the 32-bit wrap of the parsed value. -/
def wtolToDword (s : String) : Nat := ((wtol s) % (2 ^ 32 : Int)).toNat

/-- Whether a launcher command line invokes unload-only mode
(`argc >= 4 && _wcsicmp(argv[3], L"unload") == 0`). -/
def isUnloadInvocation (argv : List String) : Bool :=
  decide (argv.length ≥ 4) && eqNoCase (argv.getD 3 "") "unload"

/-- Result of a launcher run. -/
structure LauncherOut where
  exitCode : Nat
  trace : List Event
  modules : Modules

/-- The launcher's `wmain` (launcher_main.cpp:77-159): parse `<pid>
<dll_path> [unload]`, open the target, always evict an existing copy of the
named DLL first, and in inject mode additionally perform the remote
`LoadLibraryW`, exiting `0` exactly on a nonzero load result. -/
def wmain (env : Env) (argv : List String) : LauncherOut :=
  if argv.length < 3 then ⟨1, [], env.modules0⟩
  else
    let pid := wtolToDword (argv.getD 1 "")
    if pid == 0 then ⟨1, [], env.modules0⟩
    else
      let dllPath := argv.getD 2 ""
      let unloadOnly := isUnloadInvocation argv
      if !env.openProcessOk pid then ⟨1, [.openProcess pid false], env.modules0⟩
      else
        let evict :=
          match findMod env.modules0 pid (String.mk (filenameOf dllPath)) with
          | some hm => RemoteFreeLibrary env env.modules0 pid hm
          | none => ⟨env.modules0, []⟩
        if unloadOnly then
          ⟨0, .openProcess pid true :: (evict.trace ++ [.closeProcessHandle pid]), evict.ms⟩
        else
          let ld := RemoteLoadLibrary env evict.ms pid dllPath
          ⟨if ld.exitCode == 0 then 1 else 0,
            .openProcess pid true :: (evict.trace ++ ld.trace ++ [.closeProcessHandle pid]),
            ld.ms⟩

/-! ### The agent DLL (`dllmain.cpp`) -/

/-- `DLL_PROCESS_ATTACH`. -/
def DLL_PROCESS_ATTACH : Nat := 1

/-- Environment a `DllMain` invocation runs against. -/
structure DllEnv where
  /-- The `ul_reason_for_call` argument. -/
  reason : Nat
  /-- Whether `OpenFileMappingW` on the named payload segment succeeds. -/
  sharedExists : Bool
  /-- Whether `MapViewOfFile` on the read side succeeds. -/
  mapViewOk : Bool
  /-- The window handle stored in the shared payload record. -/
  storedHwnd : Nat
  /-- The affinity value stored in the shared payload record. -/
  storedAffinity : Nat
  /-- `IsWindow`, evaluated inside the target process. -/
  isWindow : Nat → Bool
  /-- Whether `SetWindowDisplayAffinity` succeeds. -/
  setAffinityOk : Bool

/-- The privileged owner-only action the agent may perform. -/
inductive DllAction where
  | setAffinity (hwnd affinity : Nat)
deriving DecidableEq

/-- Result of a `DllMain` invocation. -/
structure DllOut where
  ret : Bool
  actions : List DllAction

/-- `DllMain` (dllmain.cpp:32-75): on process attach, open and read the
payload channel and invoke `SetWindowDisplayAffinity`; on any failure to do
so, perform nothing and still return `TRUE` so the load never fails. -/
def DllMain (env : DllEnv) : DllOut :=
  if env.reason != DLL_PROCESS_ATTACH then ⟨true, []⟩
  else if !env.sharedExists then ⟨true, []⟩
  else if !env.mapViewOk then ⟨true, []⟩
  else if env.storedHwnd == 0 || !env.isWindow env.storedHwnd then ⟨true, []⟩
  else ⟨true, [.setAffinity env.storedHwnd env.storedAffinity]⟩

end WindowMod

/-! ### Trace predicates used by the claims -/

namespace WindowMod

/-- Events that trigger remote execution inside (or targeting) the target
process: a `CreateRemoteThread` call or the launcher spawn. -/
def isTrigger : Event → Bool
  | .createRemoteThread _ _ => true
  | .launcherSpawn _ => true
  | _ => false

/-- The payload-write event for a given request. -/
def isWriteEv (hwnd affinity : Nat) : Event → Bool
  | .payloadWrite h a => h == hwnd && a == affinity
  | _ => false

/-- The writer's unmap of the payload view. -/
def isUnmapEv : Event → Bool
  | .payloadUnmap => true
  | _ => false

/-- Scan a trace in order, tracking whether the payload write (`w`) and the
writer's unmap (`u`) have already been seen; demand both before every
remote-execution trigger. -/
def payloadFixedBeforeTrigger (hwnd affinity : Nat) (w u : Bool) :
    List Event → Bool
  | [] => true
  | e :: t =>
    (!isTrigger e || (w && u)) &&
      payloadFixedBeforeTrigger hwnd affinity
        (w || isWriteEv hwnd affinity e) (u || isUnmapEv e) t

/-- A successful `OpenProcess`. -/
def isOpenSuccEv : Event → Bool
  | .openProcess _ ok => ok
  | _ => false

/-- `CloseHandle` on the process handle. -/
def isCloseProcEv : Event → Bool
  | .closeProcessHandle _ => true
  | _ => false

/-- Successful creation of the payload mapping. -/
def isMapCreatedEv : Event → Bool
  | .mapCreated => true
  | _ => false

/-- `CloseHandle` on the mapping handle. -/
def isCloseMapEv : Event → Bool
  | .closeMapHandle => true
  | _ => false

/-- Successful `VirtualAllocEx` of the remote path buffer. -/
def isAllocEv : Event → Bool
  | .remoteAlloc _ => true
  | _ => false

/-- `VirtualFreeEx` of the remote path buffer. -/
def isFreeEv : Event → Bool
  | .remoteFree _ => true
  | _ => false

/-- Events that neither acquire nor release any of the three tracked
resources (process handle, mapping handle, remote buffer). -/
def neutralEv (e : Event) : Bool :=
  !isOpenSuccEv e && !isCloseProcEv e && !isMapCreatedEv e && !isCloseMapEv e &&
    !isAllocEv e && !isFreeEv e

/-- Every resource acquired in the trace is released in it: successful
process opens match process-handle closes, mapping creations match
mapping-handle closes, and remote buffer allocations match remote frees. -/
def balanced (t : List Event) : Prop :=
  t.countP isOpenSuccEv = t.countP isCloseProcEv ∧
  t.countP isMapCreatedEv = t.countP isCloseMapEv ∧
  t.countP isAllocEv = t.countP isFreeEv

theorem balanced_nil : balanced [] := by simp [balanced]

theorem balanced_append {l1 l2 : List Event} (h1 : balanced l1)
    (h2 : balanced l2) : balanced (l1 ++ l2) := by
  obtain ⟨a1, b1, c1⟩ := h1
  obtain ⟨a2, b2, c2⟩ := h2
  refine ⟨?_, ?_, ?_⟩ <;> simp [List.countP_append, a1, b1, c1, a2, b2, c2]

theorem balanced_of_neutral {t : List Event}
    (h : ∀ e ∈ t, neutralEv e = true) : balanced t := by
  induction t with
  | nil => exact balanced_nil
  | cons e t ih =>
    have he := h e (by simp)
    have ht : balanced t := ih (fun x hx => h x (by simp [hx]))
    obtain ⟨a, b, c⟩ := ht
    simp only [neutralEv, Bool.and_eq_true, Bool.not_eq_true'] at he
    obtain ⟨⟨⟨⟨⟨h1, h2⟩, h3⟩, h4⟩, h5⟩, h6⟩ := he
    refine ⟨?_, ?_, ?_⟩ <;> simp [List.countP_cons, h1, h2, h3, h4, h5, h6, a, b, c]

end WindowMod

namespace WindowMod

theorem pfbt_of_noTrigger (hwnd affinity : Nat) :
    ∀ (t : List Event) (w u : Bool), (∀ e ∈ t, isTrigger e = false) →
      payloadFixedBeforeTrigger hwnd affinity w u t = true := by
  intro t
  induction t with
  | nil => intro w u _; rfl
  | cons e t ih =>
    intro w u h
    have he := h e (by simp)
    simp [payloadFixedBeforeTrigger, he]
    exact ih _ _ (fun x hx => h x (by simp [hx]))

theorem pfbt_seen (hwnd affinity : Nat) :
    ∀ t : List Event, payloadFixedBeforeTrigger hwnd affinity true true t = true := by
  intro t
  induction t with
  | nil => rfl
  | cons e t ih => simp [payloadFixedBeforeTrigger, ih]

/-- **C4.** In every execution of `apply` (`InjectWDASetAffinity`), the shared
payload record `{windowHandle, mode}` is completely written, and the writer's
mapping view released, before any remote execution is triggered — before every
`CreateRemoteThread` call (same-architecture load and eviction threads) and
before the Launcher spawn (cross-architecture path). -/
theorem claim_C4 (env : Env) (hwnd affinity : Nat) (autoUnload : Bool) :
    payloadFixedBeforeTrigger hwnd affinity false false
      (InjectWDASetAffinity env hwnd affinity autoUnload).trace = true := by
  simp only [InjectWDASetAffinity, CreateSharedData]
  split
  · rfl
  · (repeat' split) <;>
      simp_all [payloadFixedBeforeTrigger, isTrigger, isWriteEv, isUnmapEv, pfbt_seen]

end WindowMod

namespace WindowMod

theorem RemoteFreeLibrary_neutral (env : Env) (ms : Modules) (pid hm : Nat) :
    ∀ e ∈ (RemoteFreeLibrary env ms pid hm).trace, neutralEv e = true := by
  simp only [RemoteFreeLibrary]
  (repeat' split) <;> intro e he <;> simp at he <;> subst he <;> rfl

theorem unloadLoop_neutral (env : Env) (pid : Nat) :
    ∀ (names : List String) (ms : Modules),
      ∀ e ∈ (unloadLoop env ms pid names).trace, neutralEv e = true := by
  intro names
  induction names with
  | nil => intro ms e he; simp [unloadLoop] at he
  | cons n rest ih =>
    intro ms e he
    rw [unloadLoop] at he
    cases hf : findMod ms pid n with
    | none =>
      rw [hf] at he
      exact ih ms e he
    | some hm =>
      rw [hf] at he
      simp only [List.mem_append] at he
      rcases he with h | h
      · exact RemoteFreeLibrary_neutral env ms pid hm e h
      · exact ih _ e h

theorem SpawnLauncherForPid_neutral (env : Env) (pid : Nat) (dllPath : String) :
    ∀ e ∈ (SpawnLauncherForPid env pid dllPath).trace, neutralEv e = true := by
  simp only [SpawnLauncherForPid]
  (repeat' split) <;> intro e he <;> simp at he <;>
    rcases he with h | h <;> subst h <;> rfl

theorem RemoteLoadLibrary_balanced (env : Env) (ms : Modules) (pid : Nat)
    (dllPath : String) : balanced (RemoteLoadLibrary env ms pid dllPath).trace := by
  simp only [RemoteLoadLibrary]
  (repeat' split) <;>
    refine ⟨?_, ?_, ?_⟩ <;>
      simp [List.countP_cons, isOpenSuccEv, isCloseProcEv, isMapCreatedEv,
        isCloseMapEv, isAllocEv, isFreeEv]

theorem applyInner_balanced (env : Env) (hwnd affinity : Nat) (autoUnload : Bool)
    (pid : Nat) (sName samePath oppPath : String) :
    balanced (applyInner env hwnd affinity autoUnload pid sName samePath oppPath).trace := by
  simp only [applyInner]
  split
  · -- cross-architecture branch: every event is resource-neutral
    (repeat' split) <;>
      (apply balanced_of_neutral
       intro e he
       simp at he
       rcases he with h | h
       · subst h; rfl
       · first
           | exact SpawnLauncherForPid_neutral env pid oppPath e h
           | (subst h; rfl))
  · -- same-architecture branch: evict (neutral) ++ load (balanced) ++ free (neutral)
    have hev : balanced (unloadLoop env env.modules0 pid [sName, legacyDllName]).trace :=
      balanced_of_neutral (unloadLoop_neutral env pid _ _)
    have hld := RemoteLoadLibrary_balanced env
      (unloadLoop env env.modules0 pid [sName, legacyDllName]).ms pid samePath
    (repeat' split) <;>
      first
        | exact balanced_append hev hld
        | (apply balanced_append (balanced_append hev hld)
           exact balanced_of_neutral (RemoteFreeLibrary_neutral env _ pid _))

theorem applyAfterMap_balanced (env : Env) (hwnd affinity : Nat) (autoUnload : Bool)
    (sName samePath oppPath : String) :
    balanced (applyAfterMap env hwnd affinity autoUnload sName samePath oppPath).trace := by
  simp only [applyAfterMap]
  split
  · exact balanced_nil
  · split
    · refine ⟨?_, ?_, ?_⟩ <;>
        simp [List.countP_cons, isOpenSuccEv, isCloseProcEv, isMapCreatedEv,
          isCloseMapEv, isAllocEv, isFreeEv]
    · obtain ⟨a, b, c⟩ := applyInner_balanced env hwnd affinity autoUnload
        (env.windowPid hwnd) sName samePath oppPath
      refine ⟨?_, ?_, ?_⟩ <;>
        simp [List.countP_cons, List.countP_append, isOpenSuccEv, isCloseProcEv,
          isMapCreatedEv, isCloseMapEv, isAllocEv, isFreeEv, a, b, c]

/-- The full-trace shape of a run that reached the body: a balanced body
stays balanced once wrapped in the payload-mapping bracket. -/
theorem top_balanced (p1 p2 : String) (hwnd affinity : Nat) (body : List Event)
    (hb : balanced body) :
    balanced (Event.fileCheck p1 :: Event.fileCheck p2 ::
      ([Event.mapCreated, Event.payloadWrite hwnd affinity, Event.payloadUnmap] ++
        (body ++ [Event.closeMapHandle]))) := by
  obtain ⟨a, b, c⟩ := hb
  refine ⟨?_, ?_, ?_⟩ <;>
    simp [List.countP_cons, List.countP_append, isOpenSuccEv, isCloseProcEv,
      isMapCreatedEv, isCloseMapEv, isAllocEv, isFreeEv, a, b, c]

/-- **C9.** On every exit path of `apply`, resources balance out before the
call returns: every successful `OpenProcess` is matched by a `CloseHandle` of
the target-process handle, every created payload mapping by a `CloseHandle`
of the mapping handle, and every buffer allocated inside the target for the
module path by a `VirtualFreeEx`, regardless of the load outcome (including
the remote-thread-timeout path, whose exit code is read after the bounded
wait and which frees the buffer all the same). -/
theorem claim_C9 (env : Env) (hwnd affinity : Nat) (autoUnload : Bool) :
    balanced (InjectWDASetAffinity env hwnd affinity autoUnload).trace := by
  have hb := applyAfterMap_balanced env hwnd affinity autoUnload
  simp only [InjectWDASetAffinity, CreateSharedData]
  split
  · exact balanced_nil
  · (repeat' split) <;>
      first
        | (exfalso; simp_all; done)
        | (refine ⟨?_, ?_, ?_⟩ <;>
            simp [List.countP_cons, isOpenSuccEv, isCloseProcEv, isMapCreatedEv,
              isCloseMapEv, isAllocEv, isFreeEv] <;> done)
        | exact top_balanced _ _ hwnd affinity _ (hb _ _ _)

end WindowMod

namespace WindowMod

theorem apply_open_reached (env : Env) (hwnd affinity : Nat) (autoUnload : Bool)
    (hw : (hwnd == 0) = false) (hiw : env.isWindow hwnd = true)
    (hfe : env.fileExists (joinPath env.exeDir (sameDllName env)) = true)
    (hcm : env.createFileMappingOk = true) (hmv : env.mapViewOk = true)
    (hpid : (env.windowPid hwnd == 0) = false)
    (hop : env.openProcessOk (env.windowPid hwnd) = true) :
    InjectWDASetAffinity env hwnd affinity autoUnload =
      { result := (applyInner env hwnd affinity autoUnload (env.windowPid hwnd)
          (sameDllName env) (joinPath env.exeDir (sameDllName env))
          (joinPath env.exeDir (oppDllName env))).success,
        trace := Event.fileCheck (joinPath env.exeDir (sameDllName env)) ::
          Event.fileCheck (joinPath env.exeDir (sameDllName env)) ::
          Event.mapCreated :: Event.payloadWrite hwnd affinity :: Event.payloadUnmap ::
          Event.openProcess (env.windowPid hwnd) true ::
          ((applyInner env hwnd affinity autoUnload (env.windowPid hwnd)
              (sameDllName env) (joinPath env.exeDir (sameDllName env))
              (joinPath env.exeDir (oppDllName env))).trace ++
            [Event.closeProcessHandle (env.windowPid hwnd), Event.closeMapHandle]),
        modules := (applyInner env hwnd affinity autoUnload (env.windowPid hwnd)
          (sameDllName env) (joinPath env.exeDir (sameDllName env))
          (joinPath env.exeDir (oppDllName env))).ms } := by
  simp [InjectWDASetAffinity, CreateSharedData, applyAfterMap, hw, hiw, hfe, hcm,
    hmv, hpid, hop]

theorem verifyAffinity_eq (env : Env) (hwnd affinity : Nat) :
    verifyAffinity env hwnd affinity =
      (!env.gwdaResolved || !env.gwdaCallOk hwnd || (env.gwdaValue hwnd == affinity)) := by
  cases hg : env.gwdaResolved <;> cases hc : env.gwdaCallOk hwnd <;>
    simp [verifyAffinity, hg, hc]

theorem applyInner_result_sameArch (env : Env) (hwnd affinity : Nat)
    (autoUnload : Bool) (pid : Nat) (sName samePath oppPath : String)
    (ham : env.archMismatch pid = false)
    (hva : env.virtualAllocOk pid = true) (hwm : env.writeMemOk pid = true)
    (hk : env.kernel32 = true) (hct : env.createRemoteThreadOk pid = true)
    (hex : (env.remoteLoadExit pid == 0) = false) :
    (applyInner env hwnd affinity autoUnload pid sName samePath oppPath).success =
      verifyAffinity env hwnd affinity := by
  simp only [applyInner, RemoteLoadLibrary, ham, hva, hwm, hk, hct, hex]
  simp only [Bool.not_true, Bool.false_eq_true, if_false, hex]
  (repeat' split) <;> simp_all

/-- **C1 (amended).** On the same-architecture injection path with a nonzero
remote-load result, `apply` returns true if and only if the read-only
attribute query is unavailable, or the query call itself fails, or the value
it yields equals `mode`; in particular, when the query primitive cannot be
resolved the nonzero load result alone makes the call return true.  (The
original claim's biconditional omitted the query-call-failure case, in which
the code also returns true.) -/
theorem claim_C1_amended (env : Env) (hwnd affinity : Nat) (autoUnload : Bool)
    (hw : (hwnd == 0) = false) (hiw : env.isWindow hwnd = true)
    (hfe : env.fileExists (joinPath env.exeDir (sameDllName env)) = true)
    (hcm : env.createFileMappingOk = true) (hmv : env.mapViewOk = true)
    (hpid : (env.windowPid hwnd == 0) = false)
    (hop : env.openProcessOk (env.windowPid hwnd) = true)
    (ham : env.archMismatch (env.windowPid hwnd) = false)
    (hva : env.virtualAllocOk (env.windowPid hwnd) = true)
    (hwm : env.writeMemOk (env.windowPid hwnd) = true)
    (hk : env.kernel32 = true)
    (hct : env.createRemoteThreadOk (env.windowPid hwnd) = true)
    (hex : (env.remoteLoadExit (env.windowPid hwnd) == 0) = false) :
    (InjectWDASetAffinity env hwnd affinity autoUnload).result =
      (!env.gwdaResolved || !env.gwdaCallOk hwnd ||
        (env.gwdaValue hwnd == affinity)) := by
  rw [apply_open_reached env hwnd affinity autoUnload hw hiw hfe hcm hmv hpid hop]
  simp only []
  rw [applyInner_result_sameArch env hwnd affinity autoUnload (env.windowPid hwnd)
    _ _ _ ham hva hwm hk hct hex]
  exact verifyAffinity_eq env hwnd affinity

/-- **C3.** For every `apply` call whose target process has the opposite
bit-width (the architecture check reports a mismatch), no direct remote
thread is ever created in any process during the call — neither the
load-library step nor the stale-copy eviction step runs — and whenever the
opposite-bitness module and the opposite-bitness launcher executable both
exist, execution is delegated by spawning the Launcher child process for the
target pid. -/
theorem claim_C3 (env : Env) (hwnd affinity : Nat) (autoUnload : Bool)
    (hw : (hwnd == 0) = false) (hiw : env.isWindow hwnd = true)
    (hfe : env.fileExists (joinPath env.exeDir (sameDllName env)) = true)
    (hcm : env.createFileMappingOk = true) (hmv : env.mapViewOk = true)
    (hpid : (env.windowPid hwnd == 0) = false)
    (hop : env.openProcessOk (env.windowPid hwnd) = true)
    (ham : env.archMismatch (env.windowPid hwnd) = true) :
    (∀ p r, Event.createRemoteThread p r ∉
        (InjectWDASetAffinity env hwnd affinity autoUnload).trace) ∧
    (env.fileExists (joinPath env.exeDir (oppDllName env)) = true →
      env.fileExists (joinPath env.exeDir (launcherName env)) = true →
      Event.launcherSpawn (env.windowPid hwnd) ∈
        (InjectWDASetAffinity env hwnd affinity autoUnload).trace) := by
  rw [apply_open_reached env hwnd affinity autoUnload hw hiw hfe hcm hmv hpid hop]
  constructor
  · intro p r
    simp only [applyInner, SpawnLauncherForPid, ham]
    (repeat' split) <;> simp_all
  · intro ho hl
    simp only [applyInner, SpawnLauncherForPid, ham, ho, hl]
    (repeat' split) <;> simp_all

end WindowMod

namespace WindowMod

theorem unloadLoop_all_none (env : Env) (pid : Nat) :
    ∀ (names : List String) (ms : Modules),
      (∀ n ∈ names, findMod ms pid n = none) →
      unloadLoop env ms pid names = ⟨ms, [], false⟩ := by
  intro names
  induction names with
  | nil => intro ms _; rfl
  | cons n rest ih =>
    intro ms h
    have hn := h n (by simp)
    rw [unloadLoop, hn]
    exact ih ms (fun x hx => h x (by simp [hx]))

/-- **C5.** For every valid window handle whose owning process can be opened
and whose module list contains no copy of the agent module under any known
current or legacy name, `removeAgent` (`UnloadInjectedDll`) returns success
and leaves every process's module list unchanged: "no agent present" counts
as success, which is what makes `removeAgent` idempotent. -/
theorem claim_C5 (env : Env) (hwnd : Nat)
    (hw : (hwnd == 0) = false) (hiw : env.isWindow hwnd = true)
    (hpid : (env.windowPid hwnd == 0) = false)
    (hop : env.openProcessOk (env.windowPid hwnd) = true)
    (hnone : ∀ n ∈ unloadNames, findMod env.modules0 (env.windowPid hwnd) n = none) :
    (UnloadInjectedDll env hwnd).result = true ∧
    (UnloadInjectedDll env hwnd).modules = env.modules0 := by
  have hloop := unloadLoop_all_none env (env.windowPid hwnd) unloadNames env.modules0 hnone
  simp [UnloadInjectedDll, hw, hiw, hpid, hop, hloop]

/-- **C8.** For every load of the agent module in which the named
shared-memory segment does not exist, `DllMain` performs no attribute-setting
action and still reports a successful load (returns `TRUE`): the
missing-payload case never fails the host process. -/
theorem claim_C8 (env : DllEnv) (h : env.sharedExists = false) :
    (DllMain env).ret = true ∧ (DllMain env).actions = [] := by
  unfold DllMain
  split
  · exact ⟨rfl, rfl⟩
  · simp [h]

/-- **C10.** For every call to `apply` or `removeAgent` with a null or
no-longer-valid window handle, the call returns false immediately with an
empty action trace — before the shared payload is written, before any module
file path is checked, and before any process is opened — and every process's
module list is unchanged. -/
theorem claim_C10 (env : Env) (hwnd affinity : Nat) (autoUnload : Bool)
    (h : hwnd = 0 ∨ env.isWindow hwnd = false) :
    (InjectWDASetAffinity env hwnd affinity autoUnload).result = false ∧
    (InjectWDASetAffinity env hwnd affinity autoUnload).trace = [] ∧
    (InjectWDASetAffinity env hwnd affinity autoUnload).modules = env.modules0 ∧
    (UnloadInjectedDll env hwnd).result = false ∧
    (UnloadInjectedDll env hwnd).trace = [] ∧
    (UnloadInjectedDll env hwnd).modules = env.modules0 := by
  rcases h with h | h <;> simp [InjectWDASetAffinity, UnloadInjectedDll, h]

/-- **C2 (amended).** For every `apply` call that passes the initial window
validation but finds neither the architecture-named agent module nor the
legacy-named fallback next to the controller executable, the call returns
false, records `SetLastError(ERROR_FILE_NOT_FOUND)`, and never calls
`OpenProcess` on the target.  (The original claim also covered calls with a
null or invalid handle; those return false before the file check, without
setting the file-not-found error code.) -/
theorem claim_C2_amended (env : Env) (hwnd affinity : Nat) (autoUnload : Bool)
    (hw : (hwnd == 0) = false) (hiw : env.isWindow hwnd = true)
    (h1 : env.fileExists (joinPath env.exeDir (sameDllName env)) = false)
    (h2 : env.fileExists (joinPath env.exeDir legacyDllName) = false) :
    (InjectWDASetAffinity env hwnd affinity autoUnload).result = false ∧
    Event.setLastError ERROR_FILE_NOT_FOUND ∈
      (InjectWDASetAffinity env hwnd affinity autoUnload).trace ∧
    (∀ p b, Event.openProcess p b ∉
      (InjectWDASetAffinity env hwnd affinity autoUnload).trace) := by
  simp [InjectWDASetAffinity, hw, hiw, h1, h2]

end WindowMod

namespace WindowMod

theorem foldl_fname_no_backslash :
    ∀ (l acc : List Char), (∀ c ∈ l, (c == '\\') = false) →
      l.foldl (fun acc c => if c == '\\' then [] else acc ++ [c]) acc = acc ++ l := by
  intro l
  induction l with
  | nil => intro acc _; simp
  | cons c t ih =>
    intro acc h
    have hc := h c (by simp)
    simp only [List.foldl_cons, hc, Bool.false_eq_true, if_false]
    rw [ih _ (fun x hx => h x (by simp [hx]))]
    simp

theorem filenameOf_joinPath (d n : String)
    (h : ∀ c ∈ n.data, (c == '\\') = false) :
    filenameOf (joinPath d n) = n.data := by
  have hbs : ("\\" : String).data = ['\\'] := rfl
  unfold filenameOf joinPath
  rw [String.data_append, String.data_append, hbs, List.foldl_append,
    List.foldl_append]
  simp only [List.foldl_cons, List.foldl_nil, beq_self_eq_true, if_true]
  exact (foldl_fname_no_backslash n.data [] h).trans (by simp)

theorem applyInner_success_indep (env : Env) (hwnd affinity pid : Nat)
    (sName samePath oppPath : String) :
    (applyInner env hwnd affinity true pid sName samePath oppPath).success =
      (applyInner env hwnd affinity false pid sName samePath oppPath).success := by
  simp only [applyInner]
  (repeat' split) <;> simp_all

theorem apply_result_autoUnload_indep (env : Env) (hwnd affinity : Nat) :
    (InjectWDASetAffinity env hwnd affinity true).result =
      (InjectWDASetAffinity env hwnd affinity false).result := by
  simp only [InjectWDASetAffinity, applyAfterMap, CreateSharedData]
  (repeat' split) <;> simp_all [applyInner_success_indep]

/-- **C6 (amended).** On the same-architecture path with a clean target
module list and a nonzero remote-load result, the second remote thread
targeting the unload primitive (`FreeLibrary`) is triggered if and only if
the `autoUnload` argument is true — the code triggers it whenever the load
returned nonzero and a copy of the agent is found, regardless of whether the
verification made the call's outcome a success — and its outcome never
changes the boolean result of `apply`: the result is the same whether
`autoUnload` is true or false.  (The original claim additionally required
the call's outcome to be a success for the unload thread to fire; the code
fires it on verification failure too.) -/
theorem claim_C6_amended (env : Env) (hwnd affinity : Nat) (autoUnload : Bool)
    (hw : (hwnd == 0) = false) (hiw : env.isWindow hwnd = true)
    (hfe : env.fileExists (joinPath env.exeDir (sameDllName env)) = true)
    (hcm : env.createFileMappingOk = true) (hmv : env.mapViewOk = true)
    (hpid : (env.windowPid hwnd == 0) = false)
    (hop : env.openProcessOk (env.windowPid hwnd) = true)
    (ham : env.archMismatch (env.windowPid hwnd) = false)
    (hm0 : env.modules0 = [])
    (hva : env.virtualAllocOk (env.windowPid hwnd) = true)
    (hwm : env.writeMemOk (env.windowPid hwnd) = true)
    (hk : env.kernel32 = true)
    (hct : env.createRemoteThreadOk (env.windowPid hwnd) = true)
    (hex : (env.remoteLoadExit (env.windowPid hwnd) == 0) = false)
    (hfr : env.freeLibResolved = true) :
    ((Event.createRemoteThread (env.windowPid hwnd) RemoteRoutine.freeLibrary ∈
        (InjectWDASetAffinity env hwnd affinity autoUnload).trace) ↔
      autoUnload = true) ∧
    (InjectWDASetAffinity env hwnd affinity true).result =
      (InjectWDASetAffinity env hwnd affinity false).result := by
  refine ⟨?_, apply_result_autoUnload_indep env hwnd affinity⟩
  rw [apply_open_reached env hwnd affinity autoUnload hw hiw hfe hcm hmv hpid hop]
  have hside : ∀ c ∈ (sameDllName env).data, (c == '\\') = false := by
    cases h64 : env.is64 <;> simp only [sameDllName, h64, if_true, if_false] <;> decide
  have hkey : filenameOf (joinPath env.exeDir (sameDllName env)) =
      (sameDllName env).data := filenameOf_joinPath _ _ hside
  have hev : unloadLoop env [] (env.windowPid hwnd)
      [sameDllName env, legacyDllName] = ⟨[], [], false⟩ :=
    unloadLoop_all_none env (env.windowPid hwnd) _ [] (fun n _ => rfl)
  cases autoUnload <;>
    simp [applyInner, ham, hev, hm0, RemoteLoadLibrary, hva, hwm, hk, hct, hex,
      hkey, findMod, addMod, List.find?, lcList, RemoteFreeLibrary, hfr]

end WindowMod

namespace WindowMod

theorem RemoteLoadLibrary_exitCode (env : Env) (ms : Modules) (pid : Nat)
    (dllPath : String) :
    (RemoteLoadLibrary env ms pid dllPath).exitCode =
      if env.virtualAllocOk pid && env.writeMemOk pid && env.kernel32 &&
          env.createRemoteThreadOk pid then env.remoteLoadExit pid else 0 := by
  simp only [RemoteLoadLibrary]
  (repeat' split) <;> simp_all

theorem RemoteFreeLibrary_trace_sub (env : Env) (ms : Modules) (pid hm : Nat) :
    ∀ e ∈ (RemoteFreeLibrary env ms pid hm).trace,
      e = Event.createRemoteThread pid RemoteRoutine.freeLibrary := by
  simp only [RemoteFreeLibrary]
  (repeat' split) <;> intro e he <;> simp_all

/-- **C7 (amended).** For every invocation of the Launcher: in inject mode
(no trailing `unload` token) it exits with code 0 exactly when the remote
load produced a nonzero result — that is, when the arguments are valid, the
target opens, every remote-injection step succeeds, and the load thread's
exit code is nonzero — and with code 1 otherwise.  In unload mode (trailing
`unload` token), provided the pid argument parses to a nonzero value and the
target process can be opened, it performs only the module-eviction step (no
remote allocation and no remote load-library thread) and exits with code 0;
invalid arguments or a failed `OpenProcess` exit with code 1 in either mode.
(The original claim had unload mode exiting 0 unconditionally; the code
exits 1 when the pid is invalid or the target cannot be opened.) -/
theorem claim_C7_amended (env : Env) (argv : List String) :
    (isUnloadInvocation argv = false →
      ((wmain env argv).exitCode = 0 ↔
        (3 ≤ argv.length ∧ wtolToDword (argv.getD 1 "") ≠ 0 ∧
          env.openProcessOk (wtolToDword (argv.getD 1 "")) = true ∧
          env.virtualAllocOk (wtolToDword (argv.getD 1 "")) = true ∧
          env.writeMemOk (wtolToDword (argv.getD 1 "")) = true ∧
          env.kernel32 = true ∧
          env.createRemoteThreadOk (wtolToDword (argv.getD 1 "")) = true ∧
          env.remoteLoadExit (wtolToDword (argv.getD 1 "")) ≠ 0))) ∧
    (isUnloadInvocation argv = true →
      wtolToDword (argv.getD 1 "") ≠ 0 →
      env.openProcessOk (wtolToDword (argv.getD 1 "")) = true →
      ((wmain env argv).exitCode = 0 ∧
        (∀ p, Event.remoteAlloc p ∉ (wmain env argv).trace) ∧
        (∀ p, Event.createRemoteThread p RemoteRoutine.loadLibrary ∉
          (wmain env argv).trace))) := by
  constructor
  · intro hu
    simp only [wmain, hu, Bool.false_eq_true, if_false, List.getD_eq_getElem?_getD]
    by_cases h3 : argv.length < 3
    · have hn3 : ¬ 3 ≤ argv.length := by omega
      simp only [if_pos h3]
      simp [hn3]
    · have h3a : 3 ≤ argv.length := by omega
      simp only [if_neg h3]
      by_cases hp : wtolToDword (argv[1]?.getD "") = 0
      · simp [hp]
      · have hpb : (wtolToDword (argv[1]?.getD "") == 0) = false := by simp [hp]
        simp only [hpb, Bool.false_eq_true, if_false]
        by_cases hop : env.openProcessOk (wtolToDword (argv[1]?.getD "")) = true
        · simp only [hop, Bool.not_true, Bool.false_eq_true, if_false]
          rw [RemoteLoadLibrary_exitCode]
          by_cases hc : (env.virtualAllocOk (wtolToDword (argv[1]?.getD "")) &&
              env.writeMemOk (wtolToDword (argv[1]?.getD "")) && env.kernel32 &&
              env.createRemoteThreadOk (wtolToDword (argv[1]?.getD ""))) = true
          · rw [if_pos hc]
            simp only [Bool.and_eq_true] at hc
            by_cases hz : env.remoteLoadExit (wtolToDword (argv[1]?.getD "")) = 0
            · simp [hz, hp]
            · simp [hz, h3a, hp, hop, hc.1.1.1, hc.1.1.2, hc.1.2, hc.2]
          · rw [if_neg hc]
            simp only [Bool.and_eq_true] at hc
            constructor
            · intro h0
              simp at h0
            · intro hconj
              exact absurd ⟨⟨⟨hconj.2.2.2.1, hconj.2.2.2.2.1⟩, hconj.2.2.2.2.2.1⟩,
                hconj.2.2.2.2.2.2.1⟩ hc
        · have hopb : env.openProcessOk (wtolToDword (argv[1]?.getD "")) = false := by
            cases hx : env.openProcessOk (wtolToDword (argv[1]?.getD "")) <;> simp_all
          simp [hopb, hop]
  · intro hu hp hop
    have h4 : 4 ≤ argv.length := by
      have hx := hu
      rw [isUnloadInvocation, Bool.and_eq_true] at hx
      exact of_decide_eq_true hx.1
    have h3 : ¬ argv.length < 3 := by omega
    simp only [List.getD_eq_getElem?_getD] at hp hop
    have hpb : (wtolToDword (argv[1]?.getD "") == 0) = false := by simp [hp]
    simp only [wmain, hu, if_neg h3, hpb, Bool.false_eq_true, if_false, hop,
      Bool.not_true, List.getD_eq_getElem?_getD]
    cases hf : findMod env.modules0 (wtolToDword (argv[1]?.getD ""))
        (String.mk (filenameOf (argv[2]?.getD ""))) with
    | none => refine ⟨?_, ?_, ?_⟩ <;> simp
    | some hm =>
      have hsub := RemoteFreeLibrary_trace_sub env env.modules0
        (wtolToDword (argv[1]?.getD "")) hm
      refine ⟨?_, ?_, ?_⟩
      · simp
      · intro p
        simp only [if_true, eq_self_iff_true, List.mem_cons, List.mem_append,
          not_or]
        refine ⟨by simp, ?_, by simp⟩
        intro hmem
        have h2 := hsub _ hmem
        simp at h2
      · intro p
        simp only [if_true, eq_self_iff_true, List.mem_cons, List.mem_append,
          not_or]
        refine ⟨by simp, ?_, by simp⟩
        intro hmem
        have h2 := hsub _ hmem
        simp at h2

end WindowMod

namespace WindowMod

/-- A concrete environment in which every step succeeds: a 64-bit controller
in directory `d`, window handle `1` owned by process `7`, both agent DLLs and
the x86 launcher present, remote load returning `HMODULE` 5, and the affinity
query reporting `WDA_EXCLUDEFROMCAPTURE`. -/
def happyEnv : Env where
  is64 := true
  exeDir := "d"
  fileExists := fun p =>
    p == "d\\wda_inject_x64.dll" || p == "d\\wda_inject_x86.dll" ||
      p == "d\\wda_launcher_x86.exe"
  isWindow := fun h => h == 1
  windowPid := fun h => if h == 1 then 7 else 0
  createFileMappingOk := true
  mapViewOk := true
  openProcessOk := fun p => p == 7
  archMismatch := fun _ => false
  modules0 := []
  kernel32 := true
  freeLibResolved := true
  virtualAllocOk := fun _ => true
  writeMemOk := fun _ => true
  createRemoteThreadOk := fun _ => true
  remoteLoadExit := fun _ => 5
  createProcessOk := true
  launcherExit := fun _ => 0
  gwdaResolved := true
  gwdaCallOk := fun _ => true
  gwdaValue := fun _ => WDA_EXCLUDEFROMCAPTURE

/-- `happyEnv`, except the `GetWindowDisplayAffinity` call itself fails. -/
def envQueryFails : Env := { happyEnv with gwdaCallOk := fun _ => false }

/-- `happyEnv`, except no files exist next to the controller. -/
def envNoFiles : Env := { happyEnv with fileExists := fun _ => false }

/-- `happyEnv`, except the affinity query reports `WDA_NONE`, so the
post-injection verification fails. -/
def envBadVerify : Env := { happyEnv with gwdaValue := fun _ => WDA_NONE }

/-- `happyEnv`, except every `OpenProcess` call fails. -/
def envNoOpen : Env := { happyEnv with openProcessOk := fun _ => false }

/-- `happyEnv`, except the target process has the opposite bit-width. -/
def envArch : Env := { happyEnv with archMismatch := fun _ => true }

/-- A `DllMain` environment in which the named payload segment is missing. -/
def dllEnvNoShared : DllEnv where
  reason := DLL_PROCESS_ATTACH
  sharedExists := false
  mapViewOk := true
  storedHwnd := 1
  storedAffinity := WDA_EXCLUDEFROMCAPTURE
  isWindow := fun h => h == 1
  setAffinityOk := true

/-- **C1 (counterexample).** A run that reaches the same-architecture step
with a nonzero load result, where the query primitive resolves but the query
call itself fails: the call returns true even though the query yielded no
value equal to `mode`, refuting the claim's biconditional as stated. -/
theorem claim_C1_counterexample :
    envQueryFails.gwdaResolved = true ∧
    envQueryFails.gwdaCallOk 1 = false ∧
    envQueryFails.remoteLoadExit 7 ≠ 0 ∧
    Event.createRemoteThread 7 RemoteRoutine.loadLibrary ∈
      (InjectWDASetAffinity envQueryFails 1 WDA_EXCLUDEFROMCAPTURE true).trace ∧
    (InjectWDASetAffinity envQueryFails 1 WDA_EXCLUDEFROMCAPTURE true).result = true := by
  decide

/-- Witness for C1: the amended claim applied at `happyEnv`. -/
theorem claim_C1_witness :
    (InjectWDASetAffinity happyEnv 1 WDA_EXCLUDEFROMCAPTURE true).result =
      (!happyEnv.gwdaResolved || !happyEnv.gwdaCallOk 1 ||
        (happyEnv.gwdaValue 1 == WDA_EXCLUDEFROMCAPTURE)) :=
  claim_C1_amended happyEnv 1 WDA_EXCLUDEFROMCAPTURE true (by decide) (by decide)
    (by decide) (by decide) (by decide) (by decide) (by decide) (by decide)
    (by decide) (by decide) (by decide) (by decide) (by decide)

/-- **C2 (counterexample).** With both agent files absent and a null window
handle, the call returns false but never records the file-not-found error —
its trace is empty — refuting the original claim's "returns false with an
EnvironmentError (file-not-found) error code" for such calls. -/
theorem claim_C2_counterexample :
    envNoFiles.fileExists (joinPath envNoFiles.exeDir (sameDllName envNoFiles)) = false ∧
    envNoFiles.fileExists (joinPath envNoFiles.exeDir legacyDllName) = false ∧
    (InjectWDASetAffinity envNoFiles 0 WDA_EXCLUDEFROMCAPTURE true).result = false ∧
    Event.setLastError ERROR_FILE_NOT_FOUND ∉
      (InjectWDASetAffinity envNoFiles 0 WDA_EXCLUDEFROMCAPTURE true).trace := by
  decide

/-- Witness for C2: the amended claim applied at `envNoFiles` with the valid
handle `1`. -/
theorem claim_C2_witness :
    (InjectWDASetAffinity envNoFiles 1 WDA_EXCLUDEFROMCAPTURE true).result = false ∧
    Event.setLastError ERROR_FILE_NOT_FOUND ∈
      (InjectWDASetAffinity envNoFiles 1 WDA_EXCLUDEFROMCAPTURE true).trace ∧
    (∀ p b, Event.openProcess p b ∉
      (InjectWDASetAffinity envNoFiles 1 WDA_EXCLUDEFROMCAPTURE true).trace) :=
  claim_C2_amended envNoFiles 1 WDA_EXCLUDEFROMCAPTURE true (by decide) (by decide)
    (by decide) (by decide)

/-- Witness for C3: at `envArch` the launcher spawn occurs and no remote
thread is ever created. -/
theorem claim_C3_witness :
    Event.launcherSpawn 7 ∈
      (InjectWDASetAffinity envArch 1 WDA_EXCLUDEFROMCAPTURE true).trace ∧
    Event.createRemoteThread 7 RemoteRoutine.loadLibrary ∉
      (InjectWDASetAffinity envArch 1 WDA_EXCLUDEFROMCAPTURE true).trace :=
  ⟨(claim_C3 envArch 1 WDA_EXCLUDEFROMCAPTURE true (by decide) (by decide)
      (by decide) (by decide) (by decide) (by decide) (by decide) (by decide)).2
    (by decide) (by decide),
   (claim_C3 envArch 1 WDA_EXCLUDEFROMCAPTURE true (by decide) (by decide)
      (by decide) (by decide) (by decide) (by decide) (by decide) (by decide)).1
    7 RemoteRoutine.loadLibrary⟩

/-- Witness for C5: `removeAgent` on `happyEnv` (no module loaded anywhere)
returns success and changes nothing. -/
theorem claim_C5_witness :
    (UnloadInjectedDll happyEnv 1).result = true ∧
    (UnloadInjectedDll happyEnv 1).modules = happyEnv.modules0 :=
  claim_C5 happyEnv 1 (by decide) (by decide) (by decide) (by decide) (by decide)

/-- **C6 (counterexample).** With `autoUnload = true`, a nonzero load result
and a failed verification (the query reports `WDA_NONE` instead of the
requested mode), the call's outcome is failure and yet the unload-primitive
remote thread is still triggered — refuting the original claim's "if and
only if ... the call's outcome is success". -/
theorem claim_C6_counterexample :
    (InjectWDASetAffinity envBadVerify 1 WDA_EXCLUDEFROMCAPTURE true).result = false ∧
    Event.createRemoteThread 7 RemoteRoutine.freeLibrary ∈
      (InjectWDASetAffinity envBadVerify 1 WDA_EXCLUDEFROMCAPTURE true).trace := by
  decide

/-- Witness for C6: the amended claim applied at `happyEnv` with
`autoUnload = true`. -/
theorem claim_C6_witness :
    ((Event.createRemoteThread (happyEnv.windowPid 1) RemoteRoutine.freeLibrary ∈
        (InjectWDASetAffinity happyEnv 1 WDA_EXCLUDEFROMCAPTURE true).trace) ↔
      true = true) ∧
    (InjectWDASetAffinity happyEnv 1 WDA_EXCLUDEFROMCAPTURE true).result =
      (InjectWDASetAffinity happyEnv 1 WDA_EXCLUDEFROMCAPTURE false).result :=
  claim_C6_amended happyEnv 1 WDA_EXCLUDEFROMCAPTURE true (by decide) (by decide)
    (by decide) (by decide) (by decide) (by decide) (by decide) (by decide)
    (by decide) (by decide) (by decide) (by decide) (by decide) (by decide)
    (by decide)

/-- **C7 (counterexample).** A launcher invocation in unload mode whose
target process cannot be opened exits with code 1, refuting the original
claim's "exits with code 0 unconditionally" for unload mode. -/
theorem claim_C7_counterexample :
    isUnloadInvocation
      ["wda_launcher_x86.exe", "7", "d\\wda_inject_x86.dll", "unload"] = true ∧
    (wmain envNoOpen
      ["wda_launcher_x86.exe", "7", "d\\wda_inject_x86.dll", "unload"]).exitCode = 1 := by
  decide

/-- Witness for C7: the amended claim applied at `happyEnv` on an unload-mode
command line. -/
theorem claim_C7_witness :
    isUnloadInvocation
      ["wda_launcher_x86.exe", "7", "d\\wda_inject_x86.dll", "unload"] = true ∧
    (wmain happyEnv
      ["wda_launcher_x86.exe", "7", "d\\wda_inject_x86.dll", "unload"]).exitCode = 0 ∧
    Event.remoteAlloc 7 ∉
      (wmain happyEnv
        ["wda_launcher_x86.exe", "7", "d\\wda_inject_x86.dll", "unload"]).trace :=
  ⟨by decide,
   ((claim_C7_amended happyEnv
      ["wda_launcher_x86.exe", "7", "d\\wda_inject_x86.dll", "unload"]).2
      (by decide) (by decide) (by decide)).1,
   ((claim_C7_amended happyEnv
      ["wda_launcher_x86.exe", "7", "d\\wda_inject_x86.dll", "unload"]).2
      (by decide) (by decide) (by decide)).2.1 7⟩

/-- Witness for C8: the agent's entry point with the payload segment missing
returns TRUE and performs nothing. -/
theorem claim_C8_witness :
    (DllMain dllEnvNoShared).ret = true ∧ (DllMain dllEnvNoShared).actions = [] :=
  claim_C8 dllEnvNoShared (by decide)

/-- Witness for C10: both entry points on a null handle. -/
theorem claim_C10_witness :
    (InjectWDASetAffinity happyEnv 0 WDA_EXCLUDEFROMCAPTURE true).result = false ∧
    (InjectWDASetAffinity happyEnv 0 WDA_EXCLUDEFROMCAPTURE true).trace = [] ∧
    (InjectWDASetAffinity happyEnv 0 WDA_EXCLUDEFROMCAPTURE true).modules =
      happyEnv.modules0 ∧
    (UnloadInjectedDll happyEnv 0).result = false ∧
    (UnloadInjectedDll happyEnv 0).trace = [] ∧
    (UnloadInjectedDll happyEnv 0).modules = happyEnv.modules0 :=
  claim_C10 happyEnv 0 WDA_EXCLUDEFROMCAPTURE true (Or.inl rfl)

end WindowMod
